import Mathlib

/-!
Verification development for the LP-Life-Plus repository
(`src/app/api/submit-waitlist/route.js`).

The file contains two HTTP handlers:

* `POST` — the lead-submission handler: parses a JSON body
  `{name, email, phone, plan}`, checks the Google Sheets environment
  variables, probes the spreadsheet, appends one row
  `[name, email, phone, plan, dd/mm/yyyy]`, and returns a JSON response.

* `GET` — the e-mail verification handler: extracts `token` and `tenant`
  query parameters, verifies the e-mail token, resolves the tenant
  (falling back to the token's embedded tenant), connects to the tenant
  database, finds-or-creates the user record, refreshes `lastLoginAt`,
  mints a session JWT, sets the `auth_token` cookie and redirects.

The embedding below is a shallow translation of that file.  External
collaborators (the `jsonwebtoken` verifier, `connectDB`, the Mongoose
model and the `jose` signer) are modelled as oracle fields of a world
record; JavaScript truthiness of strings and of absent values is modelled
explicitly on `Option String`.
-/

namespace LP

/-- A JavaScript runtime value, as far as this code can observe one.
The four lead fields are destructured from the request body and passed
through unchanged, so the embedding only needs a tag for each shape. -/
inductive JsValue where
  | undef
  | null
  | str (s : String)
  | num (n : Int)
  | boolean (b : Bool)
deriving DecidableEq, Repr

/-- JavaScript truthiness of a `string | null | undefined` value:
`null`/`undefined` and the empty string are falsy. -/
def jsTruthyOpt : Option String → Bool
  | none => false
  | some s => s ≠ ""

/-- JavaScript `a || b` on a `string | undefined` left operand with a
string literal fallback, as in `process.env.EMAIL_SECRET || "..."`. -/
def jsOrStr (o : Option String) (dflt : String) : String :=
  match o with
  | none => dflt
  | some s => if s = "" then dflt else s

/-- Template-literal interpolation of a possibly-undefined value:
`` `${x}` `` renders `undefined` as the string `"undefined"`. -/
def undefStr : Option String → String
  | none => "undefined"
  | some s => s

/-! URL parsing, the WHATWG fragment the handlers exercise.

`new URL(s)` with no base argument succeeds only when `s` starts with a
scheme: one ASCII letter followed by letters, digits, `+`, `-` or `.`,
terminated by `:`.  Both handlers only ever build URLs whose validity is
decided by this prefix, so the embedding models exactly that check. -/

def isSchemeTailChar (c : Char) : Bool :=
  c.isAlphanum || c = '+' || c = '-' || c = '.'

def schemeColon : List Char → Bool
  | [] => false
  | c :: rest => if c = ':' then true else isSchemeTailChar c && schemeColon rest

def urlHasScheme (s : String) : Bool :=
  match s.toList with
  | [] => false
  | c :: rest => c.isAlpha && schemeColon rest

/-- Model of `new URL(s)`: the URL itself, or the thrown `TypeError`. -/
def jsNewUrl (s : String) : Except String String :=
  if urlHasScheme s then .ok s else .error ("Invalid URL")

/-! The lead-submission handler, `POST`. -/

/-- The destructured JSON body `{ name, email, phone, plan }`. -/
structure LeadBody where
  name : JsValue
  email : JsValue
  phone : JsValue
  plan : JsValue
deriving DecidableEq, Repr

/-- The three Google Sheets environment variables read by `POST`;
`none` models an unset variable. -/
structure SheetsEnv where
  sheetsId : Option String
  clientEmail : Option String
  privateKey : Option String
deriving DecidableEq, Repr

/-- Results of the external calls `POST` makes: `request.json()`,
`sheets.spreadsheets.get` and `sheets.spreadsheets.values.append`. -/
structure SheetsWorld where
  bodyJson : Except String LeadBody
  sheetGetOk : Bool
  appendOk : Bool
deriving Repr

/-- The components of `new Date()` that the handler reads:
`getDate()` (1–31), `getMonth()` (0–11) and `getFullYear()`. -/
structure JsDate where
  day : Nat
  month0 : Nat
  year : Nat
deriving DecidableEq, Repr

/-- JavaScript `String(n)` for a non-negative integer. -/
def jsString (n : Nat) : String := Nat.repr n

/-- JavaScript `s.padStart(2, "0")`. -/
def padStart2 (s : String) : String :=
  if s.length ≥ 2 then s
  else String.mk (List.replicate (2 - s.length) '0') ++ s

/-- The `formattedDate` template literal of `POST`:
`` `${String(d.getDate()).padStart(2,"0")}/${String(d.getMonth()+1).padStart(2,"0")}/${d.getFullYear()}` ``. -/
def formattedDate (d : JsDate) : String :=
  padStart2 (jsString d.day) ++ "/" ++ padStart2 (jsString (d.month0 + 1))
    ++ "/" ++ jsString d.year

/-- Observable outcome of one `POST` request: the HTTP status and message
of the JSON response, the row appended to the sheet (if any), and which
external Sheets calls were attempted. -/
structure PostOutcome where
  status : Nat
  message : String
  appended : Option (List JsValue)
  calledSheetsGet : Bool
  calledAppend : Bool
deriving DecidableEq, Repr

/-- The `POST` handler of `src/app/api/submit-waitlist/route.js`. -/
def POST (env : SheetsEnv) (w : SheetsWorld) (today : JsDate) : PostOutcome :=
  match w.bodyJson with
  | .error _ =>
      -- `await request.json()` threw; the outer catch returns 500.
      { status := 500, message := "Internal server error", appended := none,
        calledSheetsGet := false, calledAppend := false }
  | .ok _b =>
      if !jsTruthyOpt env.sheetsId || !jsTruthyOpt env.clientEmail
          || !jsTruthyOpt env.privateKey then
        -- `throw new Error("Missing required environment variables")`,
        -- caught by the outer catch: 500 before any Sheets call.
        { status := 500, message := "Internal server error", appended := none,
          calledSheetsGet := false, calledAppend := false }
      else if !w.sheetGetOk then
        { status := 403,
          message := "Failed to access spreadsheet. Please verify permissions and spreadsheet ID.",
          appended := none, calledSheetsGet := true, calledAppend := false }
      else if !w.appendOk then
        -- the append call threw; outer catch returns 500.
        { status := 500, message := "Internal server error", appended := none,
          calledSheetsGet := true, calledAppend := true }
      else
        { status := 200, message := "Success",
          appended := some [_b.name, _b.email, _b.phone, _b.plan,
            .str (formattedDate today)],
          calledSheetsGet := true, calledAppend := true }

/-! The verification handler, `GET`.

The module-level constants of the route file:
`EMAIL_SECRET = process.env.EMAIL_SECRET || "your-secret-key"`,
`JWT_SECRET = process.env.JWT_SECRET || "your-jwt-secret"`,
`EXTERNAL_APP_URL = "https://app.liveplus.pro"`. -/

def EMAIL_SECRET (env : Option String) : String := jsOrStr env ("your-secret-key")

def JWT_SECRET (env : Option String) : String := jsOrStr env ("your-jwt-secret")

def EXTERNAL_APP_URL : String := "https://app.liveplus.pro"

/-- The claims `jwt.verify` returns for an e-mail token: the payload's
`email` and its `tenant` property (`none` when the payload has no such
property, `some ""` when it is the empty string). -/
structure Decoded where
  email : String
  tenant : Option String
deriving DecidableEq, Repr

/-- The environment variables the verification handler reads. -/
structure VerifyEnv where
  emailSecretEnv : Option String
  jwtSecretEnv : Option String
  baseUrlEnv : Option String
deriving DecidableEq, Repr

/-- A tenant-store `User` document, with the fields this handler touches.
`id` models Mongo's `_id`. -/
structure User where
  id : Nat
  email : String
  tenantPath : Option String
  role : String
  createdAt : Nat
  lastLoginAt : Nat
deriving DecidableEq, Repr

/-- The payload of the session JWT minted by `SignJWT`, together with the
secret it was signed with. -/
structure SessionClaims where
  email : String
  userId : Nat
  tenantPath : Option String
  role : String
  authenticated : Bool
  externalDomain : String
  signedWith : String
deriving DecidableEq, Repr

/-- Oracles for the external collaborators of `GET`:
`verifyToken token secret` is `jwt.verify(token, secret)`;
`connectOk` is whether `connectDB(tenant)` resolves;
`getModelOk` is whether `getTenantModel` returns without throwing;
`userOpsOk` is whether the `findOne`/`save` calls resolve;
`signOk` is whether `SignJWT.sign` plus the cookie store resolve;
`roleHook` is the pre-save middleware picking the role of a new user. -/
structure VerifyWorld where
  verifyToken : String → String → Except String Decoded
  connectOk : Bool
  getModelOk : Bool
  userOpsOk : Bool
  signOk : Bool
  roleHook : List User → String

/-- Observable outcome of one `GET` request.  `result` is `.error` exactly
when an exception escapes the handler (a raw error response instead of a
redirect); `cookie` is the `auth_token` cookie if one was set;
`dbConnectAttempted` records whether `connectDB` was called;
`userLookups` counts `findOne` calls; `store` is the tenant store after
the request. -/
structure VerifyOutcome where
  result : Except String String
  cookie : Option SessionClaims
  dbConnectAttempted : Bool
  userLookups : Nat
  store : List User
deriving Repr

/-- Lines 106–115 of the route: adopt the token's tenant when the URL
tenant is falsy and the decoded tenant is truthy, else keep the URL's. -/
def resolvedTenant (urlTenant : Option String) (d : Decoded) : Option String :=
  if !jsTruthyOpt urlTenant && jsTruthyOpt d.tenant then d.tenant else urlTenant

/-- Model of `user.save()` on an existing document: replace the store
entry carrying the same `_id`. -/
def saveUser (st : List User) (u : User) : List User :=
  st.map (fun v => if v.id = u.id then u else v)

/-- Model of `return NextResponse.redirect(new URL(url))`: if the URL constructor
throws, control falls to the outer catch, which itself builds
`` `${baseUrl}/?error=server-error` `` — and surfaces a raw error if that
URL constructor throws too. -/
def redirectOr500 (baseUrl url : String) (cookie : Option SessionClaims)
    (db : Bool) (lookups : Nat) (st : List User) : VerifyOutcome :=
  match jsNewUrl url with
  | .ok u => ⟨.ok u, cookie, db, lookups, st⟩
  | .error _ =>
      match jsNewUrl (baseUrl ++ "/?error=server-error") with
      | .ok u => ⟨.ok u, cookie, db, lookups, st⟩
      | .error e => ⟨.error e, cookie, db, lookups, st⟩

/-- The `GET` handler of `src/app/api/submit-waitlist/route.js`
(the e-mail verification route).  `store0` is the tenant's user store
before the request, `now` the current time, `freshId` the `_id` Mongo
assigns to a newly created document. -/
def GET (env : VerifyEnv) (urlToken urlTenant : Option String)
    (w : VerifyWorld) (store0 : List User) (now freshId : Nat) : VerifyOutcome :=
  let baseUrl := undefStr env.baseUrlEnv
  if !jsTruthyOpt urlToken then
    redirectOr500 baseUrl (baseUrl ++ "/?error=invalid-token") none false 0 store0
  else
    match w.verifyToken ((urlToken.getD "")) (EMAIL_SECRET env.emailSecretEnv) with
    | .error _ =>
        redirectOr500 baseUrl (baseUrl ++ "/?error=invalid-token") none false 0 store0
    | .ok decoded =>
        match resolvedTenant urlTenant decoded with
        | none =>
            redirectOr500 baseUrl (baseUrl ++ "/?error=invalid-tenant") none false 0 store0
        | some tn =>
            if tn = "" then
              redirectOr500 baseUrl (baseUrl ++ "/?error=invalid-tenant") none false 0 store0
            else if decoded.tenant ≠ some tn then
              redirectOr500 baseUrl (baseUrl ++ "/?error=invalid-tenant") none false 0 store0
            else
              let tenantUrl := EXTERNAL_APP_URL ++ "/" ++ tn ++ "/financeiro"
              if !w.connectOk then
                redirectOr500 baseUrl (tenantUrl ++ "/?error=database-error") none true 0 store0
              else if !w.getModelOk then
                -- `getTenantModel` threw outside any inner try:
                -- the outer catch redirects to the server-error page.
                redirectOr500 baseUrl (baseUrl ++ "/?error=server-error") none true 0 store0
              else if !w.userOpsOk then
                redirectOr500 baseUrl (tenantUrl ++ "/?error=user-error") none true 1 store0
              else
                let found := store0.find? (fun u => u.email == decoded.email)
                let userAndStore :=
                  match found with
                  | some u =>
                      if !jsTruthyOpt u.tenantPath then
                        let u1 := { u with tenantPath := some tn }
                        (u1, saveUser store0 u1)
                      else (u, store0)
                  | none =>
                      let u1 : User :=
                        { id := freshId, email := decoded.email,
                          tenantPath := some tn, role := w.roleHook store0,
                          createdAt := now, lastLoginAt := now }
                      (u1, store0 ++ [u1])
                let user2 := { userAndStore.1 with lastLoginAt := now }
                let store2 := saveUser userAndStore.2 user2
                if !w.signOk then
                  redirectOr500 baseUrl (tenantUrl ++ "/?error=session-error") none true 1 store2
                else
                  let claims : SessionClaims :=
                    { email := decoded.email, userId := user2.id,
                      tenantPath := user2.tenantPath, role := user2.role,
                      authenticated := true, externalDomain := EXTERNAL_APP_URL,
                      signedWith := JWT_SECRET env.jwtSecretEnv }
                  redirectOr500 baseUrl tenantUrl (some claims) true 1 store2

/-- Number of store records carrying a given e-mail. -/
def countEmail (st : List User) (e : String) : Nat :=
  (st.filter (fun u => u.email == e)).length

/-! Spec-side definitions, written from the specification's words, to be
compared with the definitions above that were translated from the
source. -/

/-- A number zero-padded to two digits, as the spec words it. -/
def specPad2 (n : Nat) : String :=
  if n < 10 then "0" ++ Nat.repr n else Nat.repr n

/-- The spec's submitted-date format: `DD/MM/YYYY`, day and month
zero-padded to two digits, month converted from the 0-based
`getMonth()`. -/
def specDate (d : JsDate) : String :=
  specPad2 d.day ++ "/" ++ specPad2 (d.month0 + 1) ++ "/" ++ Nat.repr d.year

/-- The verification checks of the pipeline: a truthy token was supplied,
`jwt.verify` accepted it, the resolved tenant is truthy, and it equals
the token's embedded tenant. -/
def checksPassed (env : VerifyEnv) (urlToken urlTenant : Option String)
    (w : VerifyWorld) : Prop :=
  ∃ t d tn, urlToken = some t ∧ t ≠ "" ∧
    w.verifyToken t (EMAIL_SECRET env.emailSecretEnv) = Except.ok d ∧
    resolvedTenant urlTenant d = some tn ∧ tn ≠ "" ∧ d.tenant = some tn

/-! Concrete sample inputs, used to witness the theorems below at
evaluable points. -/

def sampleDecoded : Decoded := { email := "a@x.com", tenant := some ("acme") }

/-- A world in which every external collaborator succeeds and the token
decodes to `sampleDecoded`. -/
def okWorld : VerifyWorld :=
  { verifyToken := fun _ _ => .ok sampleDecoded,
    connectOk := true, getModelOk := true, userOpsOk := true, signOk := true,
    roleHook := fun _ => "owner" }

/-- A world whose token verifier rejects every token. -/
def expiredWorld : VerifyWorld :=
  { okWorld with verifyToken := fun _ _ => .error ("jwt expired") }

/-- A world whose token decodes with an empty-string `tenant` claim. -/
def emptyTenantWorld : VerifyWorld :=
  { okWorld with
    verifyToken := fun _ _ => .ok { email := "a@x.com", tenant := some ("") } }

def sampleBase : String := "https://lp.example"

/-- Environment with no secrets configured and a valid public base URL. -/
def sampleEnv : VerifyEnv :=
  { emailSecretEnv := none, jwtSecretEnv := none, baseUrlEnv := some sampleBase }

/-- Environment with nothing configured at all. -/
def emptyEnv : VerifyEnv :=
  { emailSecretEnv := none, jwtSecretEnv := none, baseUrlEnv := none }

def sampleToken : Option String := some ("tok")

def acme : String := "acme"

/-- A pre-existing store record for `sampleDecoded`'s e-mail. -/
def sampleUser : User :=
  { id := 3, email := "a@x.com", tenantPath := some ("acme"), role := "member",
    createdAt := 1, lastLoginAt := 1 }

def sampleBody : LeadBody :=
  { name := .str ("Ana"), email := .str ("ana@x.com"), phone := .undef,
    plan := .str ("plus") }

def sheetsEnvOk : SheetsEnv :=
  { sheetsId := some ("sheet1"), clientEmail := some ("svc@x"),
    privateKey := some ("key") }

def sheetsWorldOk : SheetsWorld :=
  { bodyJson := .ok sampleBody, sheetGetOk := true, appendOk := true }

def sampleDate : JsDate := { day := 3, month0 := 8, year := 2026 }

def tokStr : String := "tok"

def otherTenant : String := "other"

/-- A Sheets environment with the spreadsheet id unset. -/
def sheetsEnvMissing : SheetsEnv :=
  { sheetsId := none, clientEmail := some ("svc@x"), privateKey := some ("key") }

end LP

namespace LP

theorem schemeColon_append {l : List Char} (m : List Char)
    (h : schemeColon l = true) : schemeColon (l ++ m) = true := by
  induction l with
  | nil => simp [schemeColon] at h
  | cons c rest ih =>
      simp only [schemeColon, List.cons_append] at h ⊢
      by_cases hc : c = ':'
      · simp [hc]
      · simp [hc] at h ⊢
        exact ⟨h.1, ih h.2⟩

theorem urlHasScheme_append (a b : String)
    (h : urlHasScheme a = true) : urlHasScheme (a ++ b) = true := by
  unfold urlHasScheme at h ⊢
  have hab : (a ++ b).toList = a.toList ++ b.toList := by simp [String.toList]
  rw [hab]
  cases ha : a.toList with
  | nil => rw [ha] at h; simp at h
  | cons c rest =>
      rw [ha] at h
      simp only [List.cons_append]
      simp only [Bool.and_eq_true] at h ⊢
      exact ⟨h.1, schemeColon_append _ h.2⟩

theorem jsNewUrl_ok {s : String} (h : urlHasScheme s = true) :
    jsNewUrl s = .ok s := by
  simp [jsNewUrl, h]


theorem redirectOr500_ok {url : String} (b : String) (h : urlHasScheme url = true)
    (c : Option SessionClaims) (d : Bool) (l : Nat) (st : List User) :
    redirectOr500 b url c d l st = ⟨.ok url, c, d, l, st⟩ := by
  simp [redirectOr500, jsNewUrl_ok h]

theorem redirectOr500_result_ok {b : String} (url : String)
    (h : urlHasScheme b = true)
    (c : Option SessionClaims) (d : Bool) (l : Nat) (st : List User) :
    ∃ u, (redirectOr500 b url c d l st).result = .ok u := by
  unfold redirectOr500
  cases hu : jsNewUrl url with
  | ok u => exact ⟨u, rfl⟩
  | error e =>
      rw [jsNewUrl_ok (urlHasScheme_append b _ h)]
      exact ⟨_, rfl⟩

theorem redirectOr500_cookie (b url : String) (c : Option SessionClaims)
    (d : Bool) (l : Nat) (st : List User) :
    (redirectOr500 b url c d l st).cookie = c := by
  unfold redirectOr500
  cases jsNewUrl url
  · cases jsNewUrl (b ++ "/?error=server-error") <;> rfl
  · rfl

theorem redirectOr500_db (b url : String) (c : Option SessionClaims)
    (d : Bool) (l : Nat) (st : List User) :
    (redirectOr500 b url c d l st).dbConnectAttempted = d := by
  unfold redirectOr500
  cases jsNewUrl url
  · cases jsNewUrl (b ++ "/?error=server-error") <;> rfl
  · rfl

theorem redirectOr500_lookups (b url : String) (c : Option SessionClaims)
    (d : Bool) (l : Nat) (st : List User) :
    (redirectOr500 b url c d l st).userLookups = l := by
  unfold redirectOr500
  cases jsNewUrl url
  · cases jsNewUrl (b ++ "/?error=server-error") <;> rfl
  · rfl

theorem redirectOr500_store (b url : String) (c : Option SessionClaims)
    (d : Bool) (l : Nat) (st : List User) :
    (redirectOr500 b url c d l st).store = st := by
  unfold redirectOr500
  cases jsNewUrl url
  · cases jsNewUrl (b ++ "/?error=server-error") <;> rfl
  · rfl

theorem countEmail_nil (e : String) : countEmail [] e = 0 := rfl

theorem countEmail_cons (h : User) (t : List User) (e : String) :
    countEmail (h :: t) e =
      (if h.email == e then 1 else 0) + countEmail t e := by
  simp only [countEmail, List.filter_cons]
  split <;> simp [Nat.add_comm]

theorem countEmail_append (s t : List User) (e : String) :
    countEmail (s ++ t) e = countEmail s e + countEmail t e := by
  simp [countEmail, List.filter_append]

theorem countEmail_eq_zero_iff {st : List User} {e : String} :
    countEmail st e = 0 ↔ ∀ v ∈ st, v.email ≠ e := by
  simp [countEmail, List.length_eq_zero, List.filter_eq_nil_iff]

theorem countEmail_zero_of_find?_none {st : List User} {e : String}
    (h : st.find? (fun u => u.email == e) = none) : countEmail st e = 0 := by
  rw [countEmail_eq_zero_iff]
  intro v hv
  have := List.find?_eq_none.mp h v hv
  simpa using this

theorem saveUser_nil (u : User) : saveUser [] u = [] := rfl

theorem saveUser_cons (h : User) (t : List User) (u : User) :
    saveUser (h :: t) u = (if h.id = u.id then u else h) :: saveUser t u := rfl

theorem saveUser_map_id (st : List User) (u : User) :
    (saveUser st u).map User.id = st.map User.id := by
  induction st with
  | nil => rfl
  | cons h t ih =>
      rw [saveUser_cons]
      simp only [List.map_cons, ih]
      split
      · rename_i hid; rw [hid]
      · rfl

theorem saveUser_length (st : List User) (u : User) :
    (saveUser st u).length = st.length := by
  simp [saveUser]

theorem saveUser_of_id_not_mem {st : List User} {u : User}
    (h : ∀ v ∈ st, v.id ≠ u.id) : saveUser st u = st := by
  induction st with
  | nil => rfl
  | cons x t ih =>
      rw [saveUser_cons]
      have hx : x.id ≠ u.id := h x (List.mem_cons_self x t)
      rw [if_neg hx, ih (fun v hv => h v (List.mem_cons_of_mem x hv))]

theorem saveUser_append (s t : List User) (u : User) :
    saveUser (s ++ t) u = saveUser s u ++ saveUser t u := by
  simp [saveUser]

theorem saveUser_saveUser (st : List User) (a b : User) (h : a.id = b.id) :
    saveUser (saveUser st a) b = saveUser st b := by
  induction st with
  | nil => rfl
  | cons x t ih =>
      rw [saveUser_cons, saveUser_cons, saveUser_cons, ih]
      by_cases hx : x.id = a.id
      · rw [if_pos hx, if_pos h, if_pos (hx.trans h)]
      · rw [if_neg hx]

theorem saveUser_found :
    ∀ (st : List User) (e : String) (u b : User),
      st.find? (fun v => v.email == e) = some u →
      (st.map User.id).Nodup →
      countEmail st e ≤ 1 →
      b.id = u.id → b.email = e →
      countEmail (saveUser st b) e = 1 ∧
        ∀ v ∈ saveUser st b, v.email = e → v = b := by
  intro st
  induction st with
  | nil => intro e u b hf; simp at hf
  | cons x t ih =>
      intro e u b hf hnd hc hid hbe
      rw [List.find?_cons] at hf
      rw [List.map_cons, List.nodup_cons] at hnd
      by_cases hx : x.email = e
      · -- the head is the found record
        have hxe : (x.email == e) = true := by simpa using hx
        simp only [hxe] at hf
        have hux : u = x := (Option.some.inj hf).symm
        subst hux
        have hz : countEmail t e = 0 := by
          rw [countEmail_cons, if_pos (by simpa using hx)] at hc
          omega
        have hsave : saveUser t b = t := by
          apply saveUser_of_id_not_mem
          intro v hv hvid
          apply hnd.1
          have hvx : v.id = u.id := by rw [hvid, hid]
          exact hvx ▸ List.mem_map_of_mem User.id hv
        rw [saveUser_cons, if_pos hid.symm, hsave]
        constructor
        · rw [countEmail_cons, if_pos (by simpa using hbe), hz]
        · intro v hv hve
          rcases List.mem_cons.mp hv with hvb | hvt
          · exact hvb
          · exact absurd hve (countEmail_eq_zero_iff.mp hz v hvt)
      · -- the found record is in the tail
        have hxe : (x.email == e) = false := by simpa using hx
        simp only [hxe] at hf
        have hmem : u ∈ t := List.mem_of_find?_eq_some hf
        have hct : countEmail t e ≤ 1 := by
          rw [countEmail_cons, if_neg (by simpa using hx)] at hc
          omega
        have ht := ih e u b hf hnd.2 hct hid hbe
        have hxid : x.id ≠ b.id := by
          intro hxb
          apply hnd.1
          have hux : u.id = x.id := by rw [← hid, ← hxb]
          exact hux ▸ List.mem_map_of_mem User.id hmem
        rw [saveUser_cons, if_neg hxid]
        constructor
        · rw [countEmail_cons, if_neg (by simpa using hx), ht.1]
        · intro v hv hve
          rcases List.mem_cons.mp hv with hvx | hvt
          · exact absurd (hvx ▸ hve) hx
          · exact ht.2 v hvt hve

theorem jsTruthyOpt_iff {o : Option String} :
    jsTruthyOpt o = true ↔ ∃ s, o = some s ∧ s ≠ "" := by
  cases o <;> simp [jsTruthyOpt]


/-- Claim C3: a missing, empty or unverifiable token always redirects to the
base-URL invalid-token page, whatever the tenant parameter, touching
neither the database nor the store. -/
theorem invalidTokenRedirect (env : VerifyEnv) (urlToken urlTenant : Option String)
    (w : VerifyWorld) (store0 : List User) (now freshId : Nat) (b : String)
    (hb : env.baseUrlEnv = some b) (hs : urlHasScheme b = true)
    (h : urlToken = none ∨ urlToken = some ("") ∨
      ∃ t m, urlToken = some t ∧
        w.verifyToken t (EMAIL_SECRET env.emailSecretEnv) = Except.error m) :
    GET env urlToken urlTenant w store0 now freshId =
      ⟨.ok (b ++ "/?error=invalid-token"), none, false, 0, store0⟩ := by
  have hsb : urlHasScheme (b ++ "/?error=invalid-token") = true :=
    urlHasScheme_append b _ hs
  unfold GET
  rw [hb]
  simp only [undefStr]
  rcases h with h | h | ⟨t, m, ht, hv⟩
  · subst h
    rw [if_pos (by simp [jsTruthyOpt])]
    exact redirectOr500_ok b hsb none false 0 store0
  · subst h
    rw [if_pos (by simp [jsTruthyOpt])]
    exact redirectOr500_ok b hsb none false 0 store0
  · subst ht
    by_cases hte : t = ""
    · rw [if_pos (by simp [jsTruthyOpt, hte])]
      exact redirectOr500_ok b hsb none false 0 store0
    · rw [if_neg (by simp [jsTruthyOpt, hte])]
      simp only [Option.getD_some]
      rw [hv]
      exact redirectOr500_ok b hsb none false 0 store0

/-- Claim C2: when the resolved tenant differs from the token's embedded tenant,
the handler redirects to the base-URL invalid-tenant page and performs no
database operation: no connection, no user lookup, no store write, no
cookie. -/
theorem tenantMismatchNoDb (env : VerifyEnv) (urlToken urlTenant : Option String)
    (w : VerifyWorld) (store0 : List User) (now freshId : Nat)
    (b t : String) (d : Decoded) (tn : String)
    (hb : env.baseUrlEnv = some b) (hs : urlHasScheme b = true)
    (ht : urlToken = some t) (hte : t ≠ "")
    (hv : w.verifyToken t (EMAIL_SECRET env.emailSecretEnv) = Except.ok d)
    (hr : resolvedTenant urlTenant d = some tn) (htn : tn ≠ "")
    (hne : d.tenant ≠ some tn) :
    GET env urlToken urlTenant w store0 now freshId =
      ⟨.ok (b ++ "/?error=invalid-tenant"), none, false, 0, store0⟩ := by
  have hsb : urlHasScheme (b ++ "/?error=invalid-tenant") = true :=
    urlHasScheme_append b _ hs
  subst ht
  unfold GET
  rw [hb]
  simp only [undefStr, Option.getD_some]
  rw [if_neg (by simp [jsTruthyOpt, hte]), hv]
  simp only
  rw [hr]
  simp only
  rw [if_neg htn, if_pos hne]
  exact redirectOr500_ok b hsb none false 0 store0


/-- Claim C7, amended: when the configured public base URL is an absolute URL
(it has a scheme), the verification handler answers every request with a
redirect, never a raw error. -/
theorem verifyAlwaysRedirects (env : VerifyEnv) (urlToken urlTenant : Option String)
    (w : VerifyWorld) (store0 : List User) (now freshId : Nat) (b : String)
    (hb : env.baseUrlEnv = some b) (hs : urlHasScheme b = true) :
    ∃ u, (GET env urlToken urlTenant w store0 now freshId).result = Except.ok u := by
  unfold GET
  rw [hb]
  simp only [undefStr]
  repeat' first
    | exact redirectOr500_result_ok _ hs _ _ _ _
    | split


/-- Claim C9, amended: with the URL tenant omitted and the token's tenant
non-empty, the handler adopts the token's tenant and reaches the database
stage; with it empty or absent it redirects to invalid-tenant without
touching the database; and the tenant-mismatch branch is unreachable for
such requests. -/
theorem tokenTenantAdoption (env : VerifyEnv) (urlToken : Option String)
    (w : VerifyWorld) (store0 : List User) (now freshId : Nat)
    (b t : String) (d : Decoded)
    (hb : env.baseUrlEnv = some b) (hs : urlHasScheme b = true)
    (ht : urlToken = some t) (hte : t ≠ "")
    (hv : w.verifyToken t (EMAIL_SECRET env.emailSecretEnv) = Except.ok d) :
    (jsTruthyOpt d.tenant = true →
      resolvedTenant none d = d.tenant ∧
      (GET env urlToken none w store0 now freshId).dbConnectAttempted = true) ∧
    (jsTruthyOpt d.tenant = false →
      GET env urlToken none w store0 now freshId =
        ⟨.ok (b ++ "/?error=invalid-tenant"), none, false, 0, store0⟩) ∧
    (∀ tn, resolvedTenant none d = some tn → tn ≠ "" → d.tenant = some tn) := by
  subst ht
  have h0 : jsTruthyOpt none = false := rfl
  refine ⟨fun htr => ⟨?_, ?_⟩, fun hfa => ?_, fun tn hres htne => ?_⟩
  · unfold resolvedTenant
    rw [if_pos (by simp [h0, htr])]
  · -- the token's tenant is adopted and the pipeline reaches the database stage
    obtain ⟨tns, hdt, hdne⟩ := jsTruthyOpt_iff.mp htr
    unfold GET
    rw [hb]
    simp only [undefStr, Option.getD_some]
    rw [if_neg (by simp [jsTruthyOpt, hte]), hv]
    simp only
    have hres : resolvedTenant none d = some tns := by
      unfold resolvedTenant
      rw [if_pos (by simp [h0, htr]), hdt]
    rw [hres]
    simp only
    rw [if_neg hdne, if_neg (by simp [hdt])]
    simp only [apply_ite (fun o => VerifyOutcome.dbConnectAttempted o),
      redirectOr500_db, ite_self]
  · -- a falsy token tenant with an omitted URL tenant: invalid-tenant redirect
    have hres : resolvedTenant none d = none := by
      unfold resolvedTenant
      rw [if_neg (by simp [hfa])]
    unfold GET
    rw [hb]
    simp only [undefStr, Option.getD_some]
    rw [if_neg (by simp [jsTruthyOpt, hte]), hv]
    simp only
    rw [hres]
    exact redirectOr500_ok b (urlHasScheme_append b _ hs) none false 0 store0
  · -- the mismatch branch is unreachable when the URL omits the tenant
    unfold resolvedTenant at hres
    by_cases htr : jsTruthyOpt d.tenant = true
    · rw [if_pos (by simp [h0, htr])] at hres
      exact hres
    · have htrf : jsTruthyOpt d.tenant = false := by
        revert htr; cases jsTruthyOpt d.tenant <;> simp
      rw [if_neg (by simp [htrf])] at hres
      exact absurd hres (by simp)


/-- Claim C1: a session cookie is set, a user record is read, or the store is
changed, only when the e-mail token was supplied and verified and the
resolved tenant is present and equals the token's embedded tenant. -/
theorem sessionOnlyAfterChecks (env : VerifyEnv) (urlToken urlTenant : Option String)
    (w : VerifyWorld) (store0 : List User) (now freshId : Nat)
    (h : (GET env urlToken urlTenant w store0 now freshId).cookie.isSome = true ∨
         (GET env urlToken urlTenant w store0 now freshId).userLookups ≠ 0 ∨
         (GET env urlToken urlTenant w store0 now freshId).store ≠ store0) :
    checksPassed env urlToken urlTenant w := by
  unfold GET at h
  simp only [undefStr] at h
  split at h
  · simp [redirectOr500_cookie, redirectOr500_lookups, redirectOr500_store] at h
  · rename_i hTok
    split at h
    · simp [redirectOr500_cookie, redirectOr500_lookups, redirectOr500_store] at h
    · rename_i d hd
      split at h
      · simp [redirectOr500_cookie, redirectOr500_lookups, redirectOr500_store] at h
      · rename_i tn hres
        split at h
        · simp [redirectOr500_cookie, redirectOr500_lookups, redirectOr500_store] at h
        · rename_i htn
          split at h
          · simp [redirectOr500_cookie, redirectOr500_lookups, redirectOr500_store] at h
          · rename_i hne
            obtain ⟨t, hT, hTne⟩ := jsTruthyOpt_iff.mp (by simpa using hTok)
            rw [hT, Option.getD_some] at hd
            exact ⟨t, d, tn, hT, hTne, hd, hres, htn, not_not.mp hne⟩


/-- Claim C4: after a successful verification, the tenant store holds exactly
one record for the decoded e-mail, every such record has `lastLoginAt`
refreshed to the current time, and the record ids show an in-place update
when a record existed and exactly one appended id when none did. -/
theorem userUpsertExactlyOne (env : VerifyEnv) (urlToken urlTenant : Option String)
    (w : VerifyWorld) (store0 : List User) (now freshId : Nat)
    (t : String) (d : Decoded) (tn : String)
    (ht : urlToken = some t) (hte : t ≠ "")
    (hv : w.verifyToken t (EMAIL_SECRET env.emailSecretEnv) = Except.ok d)
    (hr : resolvedTenant urlTenant d = some tn) (htn : tn ≠ "")
    (hdt : d.tenant = some tn)
    (hconn : w.connectOk = true) (hmodel : w.getModelOk = true)
    (hops : w.userOpsOk = true)
    (hnd : (store0.map User.id).Nodup)
    (hfresh : freshId ∉ store0.map User.id)
    (hcount : countEmail store0 d.email ≤ 1) :
    countEmail (GET env urlToken urlTenant w store0 now freshId).store d.email = 1 ∧
    (∀ v ∈ (GET env urlToken urlTenant w store0 now freshId).store,
        v.email = d.email → v.lastLoginAt = now) ∧
    (GET env urlToken urlTenant w store0 now freshId).store.map User.id =
      (if store0.find? (fun u => u.email == d.email) = none
        then store0.map User.id ++ [freshId] else store0.map User.id) := by
  subst ht
  have hstore :
      (GET env (some t) urlTenant w store0 now freshId).store =
        (match store0.find? (fun u => u.email == d.email) with
          | some u =>
              if !jsTruthyOpt u.tenantPath then
                saveUser store0 { u with tenantPath := some tn, lastLoginAt := now }
              else saveUser store0 { u with lastLoginAt := now }
          | none => store0 ++
              [{ id := freshId, email := d.email, tenantPath := some tn,
                 role := w.roleHook store0, createdAt := now, lastLoginAt := now }]) := by
    unfold GET
    simp only [undefStr, Option.getD_some]
    rw [if_neg (by simp [jsTruthyOpt, hte]), hv]
    simp only
    rw [hr]
    simp only
    rw [if_neg htn, if_neg (by simp [hdt]), if_neg (by simp [hconn]),
      if_neg (by simp [hmodel]), if_neg (by simp [hops])]
    cases hfind : store0.find? (fun u => u.email == d.email) with
    | none =>
        simp only [hfind]
        have hsv : saveUser store0
            { id := freshId, email := d.email, tenantPath := some tn,
              role := w.roleHook store0, createdAt := now, lastLoginAt := now } =
            store0 := by
          apply saveUser_of_id_not_mem
          intro v hv1 hvid
          apply hfresh
          have hv2 : v.id = freshId := hvid
          exact hv2 ▸ List.mem_map_of_mem User.id hv1
        cases hsig : w.signOk <;>
          simp only [Bool.not_false, Bool.not_true, if_neg Bool.false_ne_true,
            if_pos, redirectOr500_store, saveUser_append, saveUser_cons,
            saveUser_nil, hsv]
    | some u =>
        simp only [hfind]
        by_cases htp : jsTruthyOpt u.tenantPath = true
        · have hc1 : (!jsTruthyOpt u.tenantPath) = false := by rw [htp]; rfl
          simp only [hc1, if_neg Bool.false_ne_true]
          cases hsig : w.signOk <;>
            simp only [Bool.not_false, Bool.not_true, if_neg Bool.false_ne_true,
              if_pos, redirectOr500_store]
        · have hc1 : (!jsTruthyOpt u.tenantPath) = true := by
            revert htp; cases jsTruthyOpt u.tenantPath <;> simp
          simp only [hc1, if_pos]
          cases hsig : w.signOk <;>
            simp only [Bool.not_false, Bool.not_true, if_neg Bool.false_ne_true,
              if_pos, redirectOr500_store] <;>
            rw [saveUser_saveUser store0 { u with tenantPath := some tn }
              { u with tenantPath := some tn, lastLoginAt := now } rfl]
  rw [hstore]
  cases hfind : store0.find? (fun u => u.email == d.email) with
  | none =>
      simp only [hfind]
      have hz : countEmail store0 d.email = 0 := countEmail_zero_of_find?_none hfind
      refine ⟨?_, ?_, by simp⟩
      · rw [countEmail_append, hz, countEmail_cons, countEmail_nil,
          if_pos (by simp)]
      · intro v hvm hve
        rcases List.mem_append.mp hvm with hv0 | hv1
        · exact absurd hve (countEmail_eq_zero_iff.mp hz v hv0)
        · rcases List.mem_singleton.mp hv1 with rfl
          rfl
  | some u =>
      simp only [hfind]
      have hue : u.email = d.email := by
        simpa using List.find?_some hfind
      by_cases htp : jsTruthyOpt u.tenantPath = true
      · have hc1 : (!jsTruthyOpt u.tenantPath) = false := by rw [htp]; rfl
        simp only [hc1, if_neg Bool.false_ne_true]
        have hsf := saveUser_found store0 d.email u { u with lastLoginAt := now }
          hfind hnd hcount rfl hue
        refine ⟨hsf.1, ?_, by rw [saveUser_map_id]; simp⟩
        intro v hvm hve
        rw [hsf.2 v hvm hve]
      · have hc1 : (!jsTruthyOpt u.tenantPath) = true := by
          revert htp; cases jsTruthyOpt u.tenantPath <;> simp
        simp only [hc1, if_pos]
        have hsf := saveUser_found store0 d.email u
          { u with tenantPath := some tn, lastLoginAt := now }
          hfind hnd hcount rfl hue
        refine ⟨hsf.1, ?_, by rw [saveUser_map_id]; simp⟩
        intro v hvm hve
        rw [hsf.2 v hvm hve]


theorem padStart2_repr_spec : ∀ n, n < 100 → padStart2 (jsString n) = specPad2 n := by
  decide

theorem formattedDate_eq_specDate (d : JsDate) (hd : d.day ≤ 31)
    (hm : d.month0 ≤ 11) : formattedDate d = specDate d := by
  unfold formattedDate specDate
  rw [padStart2_repr_spec d.day (by omega),
    padStart2_repr_spec (d.month0 + 1) (by omega)]
  rfl

/-- Claim C5: a fully successful lead submission returns 200 Success and appends
exactly the five fields `[name, email, phone, plan, current date]`, the
date rendered as `DD/MM/YYYY` with zero-padded day and month
(`specDate`, the spec-side format). -/
theorem leadRowMatchesSpec (env : SheetsEnv) (w : SheetsWorld) (b : LeadBody)
    (today : JsDate)
    (hb : w.bodyJson = .ok b)
    (h1 : jsTruthyOpt env.sheetsId = true) (h2 : jsTruthyOpt env.clientEmail = true)
    (h3 : jsTruthyOpt env.privateKey = true)
    (hg : w.sheetGetOk = true) (ha : w.appendOk = true)
    (hd : today.day ≤ 31) (hm : today.month0 ≤ 11) :
    (POST env w today).status = 200 ∧ (POST env w today).message = "Success" ∧
    (POST env w today).appended =
      some [b.name, b.email, b.phone, b.plan, .str (specDate today)] := by
  unfold POST
  rw [hb]
  simp [h1, h2, h3, hg, ha, formattedDate_eq_specDate today hd hm]

/-- Claim C6: with any of the three spreadsheet environment variables unset, the
lead handler returns 500 with no row appended and without attempting
either external Sheets call. -/
theorem missingSheetsEnv500 (env : SheetsEnv) (w : SheetsWorld) (today : JsDate)
    (h : env.sheetsId = none ∨ env.clientEmail = none ∨ env.privateKey = none) :
    (POST env w today).status = 500 ∧
    (POST env w today).calledSheetsGet = false ∧
    (POST env w today).calledAppend = false ∧
    (POST env w today).appended = none := by
  unfold POST
  cases hw : w.bodyJson with
  | error e => exact ⟨rfl, rfl, rfl, rfl⟩
  | ok b =>
      have hcond : (!jsTruthyOpt env.sheetsId || !jsTruthyOpt env.clientEmail
          || !jsTruthyOpt env.privateKey) = true := by
        rcases h with h | h | h <;> rw [h] <;> simp [jsTruthyOpt]
      simp [hcond]

/-- Claim C10: the lead handler never validates the four body fields: the
response is identical for any two parseable bodies, and whatever values
were supplied (undefined included) land unchanged in the appended row. -/
theorem leadFieldsUnvalidated (env : SheetsEnv) (g a : Bool)
    (b b2 : LeadBody) (today : JsDate) :
    (POST env ⟨.ok b, g, a⟩ today).status = (POST env ⟨.ok b2, g, a⟩ today).status ∧
    (POST env ⟨.ok b, g, a⟩ today).message = (POST env ⟨.ok b2, g, a⟩ today).message ∧
    ((POST env ⟨.ok b, g, a⟩ today).appended = none ∨
      (POST env ⟨.ok b, g, a⟩ today).appended =
        some [b.name, b.email, b.phone, b.plan, .str (formattedDate today)]) := by
  unfold POST
  simp only
  split_ifs <;> simp


/-- Counterexample for C7: with `NEXT_PUBLIC_APP_URL` unset, a request with a
missing token makes both the inner redirect and the outer catch's
server-error redirect throw `Invalid URL`, so a raw error escapes the
handler instead of a redirect. -/
theorem verifyRawErrorWithoutBaseUrl :
    (GET emptyEnv none none okWorld [] 0 0).result = Except.error ("Invalid URL") := by
  rfl

/-- Counterexample for C8: with both secret variables absent the handler still
verifies, provisions and signs a session token with the literal fallback
secret, so the secrets are not required externally supplied
configuration. -/
theorem fallbackSecretsOperate :
    EMAIL_SECRET none = "your-secret-key" ∧
    JWT_SECRET none = "your-jwt-secret" ∧
    (GET sampleEnv sampleToken (some acme) okWorld [] 5 7).cookie =
      some { email := "a@x.com", userId := 7, tenantPath := some acme,
             role := "owner", authenticated := true,
             externalDomain := EXTERNAL_APP_URL,
             signedWith := "your-jwt-secret" } := by
  exact ⟨rfl, rfl, rfl⟩

/-- Claim C8, amended: the e-mail and session signing secrets fall back to the
embedded literals `your-secret-key` and `your-jwt-secret` when their
environment variables are unset or empty, the external application domain
is the hard-coded constant `https://app.liveplus.pro`, and the handler
still issues a session with nothing configured. -/
theorem secretsHaveEmbeddedDefaults :
    EMAIL_SECRET none = "your-secret-key" ∧
    EMAIL_SECRET (some ("")) = "your-secret-key" ∧
    JWT_SECRET none = "your-jwt-secret" ∧
    JWT_SECRET (some ("")) = "your-jwt-secret" ∧
    EMAIL_SECRET (some ("s3")) = "s3" ∧
    JWT_SECRET (some ("j3")) = "j3" ∧
    EXTERNAL_APP_URL = "https://app.liveplus.pro" ∧
    (GET emptyEnv sampleToken (some acme) okWorld [] 5 7).cookie.isSome = true := by
  exact ⟨rfl, rfl, rfl, rfl, rfl, rfl, rfl, rfl⟩

/-- Counterexample for C9: a token whose payload embeds the tenant value `""`
is not adopted when the URL omits the tenant: the handler redirects to
invalid-tenant even though the decoded token carries a tenant value. -/
theorem emptyTenantNotAdopted :
    emptyTenantWorld.verifyToken tokStr (EMAIL_SECRET none) =
      Except.ok { email := "a@x.com", tenant := some ("") } ∧
    GET sampleEnv sampleToken none emptyTenantWorld [] 5 7 =
      ⟨.ok (sampleBase ++ "/?error=invalid-tenant"), none, false, 0, []⟩ := by
  exact ⟨rfl, rfl⟩

/-- Witness for C1 at a concrete successful request. -/
theorem sessionOnlyAfterChecksWitness :
    checksPassed sampleEnv sampleToken (some acme) okWorld :=
  sessionOnlyAfterChecks sampleEnv sampleToken (some acme) okWorld [] 5 7
    (Or.inl rfl)

/-- Witness for C2: a token for tenant acme replayed with tenant other. -/
theorem tenantMismatchNoDbWitness :
    GET sampleEnv sampleToken (some otherTenant) okWorld [sampleUser] 5 7 =
      ⟨.ok (sampleBase ++ "/?error=invalid-tenant"), none, false, 0, [sampleUser]⟩ :=
  tenantMismatchNoDb sampleEnv sampleToken (some otherTenant) okWorld [sampleUser] 5 7
    sampleBase tokStr sampleDecoded otherTenant rfl (by rfl) rfl (by decide) rfl
    (by rfl) (by decide) (by decide)

/-- Witness for C3: an expired token with a tenant parameter present. -/
theorem invalidTokenRedirectWitness :
    GET sampleEnv sampleToken (some acme) expiredWorld [] 5 7 =
      ⟨.ok (sampleBase ++ "/?error=invalid-token"), none, false, 0, []⟩ :=
  invalidTokenRedirect sampleEnv sampleToken (some acme) expiredWorld [] 5 7 sampleBase
    rfl (by rfl) (Or.inr (Or.inr ⟨tokStr, "jwt expired", rfl, rfl⟩))

/-- Witness for C4: a second verification for an already-stored user. -/
theorem userUpsertExactlyOneWitness :
    countEmail (GET sampleEnv sampleToken (some acme) okWorld [sampleUser] 5 7).store
        sampleDecoded.email = 1 ∧
    (GET sampleEnv sampleToken (some acme) okWorld [sampleUser] 5 7).store.map User.id =
      (if ([sampleUser].find? (fun u => u.email == sampleDecoded.email)) = none
        then [sampleUser].map User.id ++ [7] else [sampleUser].map User.id) :=
  ⟨(userUpsertExactlyOne sampleEnv sampleToken (some acme) okWorld [sampleUser] 5 7
      tokStr sampleDecoded acme rfl (by decide) rfl (by rfl) (by decide) rfl rfl rfl rfl
      (by decide) (by decide) (by decide)).1,
   (userUpsertExactlyOne sampleEnv sampleToken (some acme) okWorld [sampleUser] 5 7
      tokStr sampleDecoded acme rfl (by decide) rfl (by rfl) (by decide) rfl rfl rfl rfl
      (by decide) (by decide) (by decide)).2.2⟩

/-- Witness for C5 at a concrete submission and date. -/
theorem leadRowMatchesSpecWitness :
    (POST sheetsEnvOk sheetsWorldOk sampleDate).status = 200 ∧
    (POST sheetsEnvOk sheetsWorldOk sampleDate).message = "Success" ∧
    (POST sheetsEnvOk sheetsWorldOk sampleDate).appended =
      some [sampleBody.name, sampleBody.email, sampleBody.phone, sampleBody.plan,
        .str (specDate sampleDate)] :=
  leadRowMatchesSpec sheetsEnvOk sheetsWorldOk sampleBody sampleDate rfl rfl rfl rfl
    rfl rfl (by decide) (by decide)

/-- Witness for C6 with the spreadsheet id unset. -/
theorem missingSheetsEnv500Witness :
    (POST sheetsEnvMissing sheetsWorldOk sampleDate).status = 500 ∧
    (POST sheetsEnvMissing sheetsWorldOk sampleDate).calledSheetsGet = false ∧
    (POST sheetsEnvMissing sheetsWorldOk sampleDate).calledAppend = false ∧
    (POST sheetsEnvMissing sheetsWorldOk sampleDate).appended = none :=
  missingSheetsEnv500 sheetsEnvMissing sheetsWorldOk sampleDate (Or.inl rfl)

/-- Witness for C7 at a concrete request with a valid base URL. -/
theorem verifyAlwaysRedirectsWitness :
    (GET sampleEnv sampleToken none okWorld [] 5 7).result.isOk = true := by
  obtain ⟨u, hu⟩ :=
    verifyAlwaysRedirects sampleEnv sampleToken none okWorld [] 5 7 sampleBase rfl
      (by rfl)
  rw [hu]
  rfl

/-- Witness for C9: the token tenant is adopted and the database stage is
reached. -/
theorem tokenTenantAdoptionWitness :
    resolvedTenant none sampleDecoded = sampleDecoded.tenant ∧
    (GET sampleEnv sampleToken none okWorld [] 5 7).dbConnectAttempted = true :=
  (tokenTenantAdoption sampleEnv sampleToken okWorld [] 5 7 sampleBase tokStr
    sampleDecoded rfl (by rfl) rfl (by decide) rfl).1 (by rfl)

end LP
